import Mathlib

/-!
Verification of the MetaHDR evaluation script (src/eval.py) against its
specification.  The Python code is shallowly embedded: index arithmetic and
metric aggregation become Lean functions over Nat and ℚ, the file system and
the random draws of sklearn's train_test_split become explicit parameters,
and the control flow of main becomes an explicit step trace.
-/

namespace MetaHDR

/-! ### Baseline-label index mapping, eval.py lines 162-173 -/

/-- Index of the precomputed HDRCNN baseline-label file for support exposure
index i of scene currIdx, where datasetLen is all_test_data.shape 0.
Mirrors eval.py lines 164-171: image_idx = curr_idx + 1; exposure 1 adds one
dataset length, exposure 2 adds nothing, exposure 3 adds two dataset lengths,
and any other exposure index falls through with no offset. -/
def imageIdx (datasetLen currIdx i : Nat) : Nat :=
  let idx := currIdx + 1
  if i = 1 then idx + datasetLen
  else if i = 2 then idx
  else if i = 3 then idx + 2 * datasetLen
  else idx

/-- Python format spec 06d applied to a nonnegative integer: the decimal
digits left-padded with zeros to width 6 (eval.py line 172). -/
def pyFormat06 (n : Nat) : String :=
  String.mk (List.replicate (6 - (Nat.repr n).length) '0') ++ Nat.repr n

/-- File name of a baseline-label file, from the f-string of eval.py
line 172: the 06d-formatted index followed by the fixed suffix. -/
def hdrLabelFileName (idx : Nat) : String :=
  pyFormat06 idx ++ "_out.png"

/-- Loading a baseline label (eval.py line 172): look the file name up in the
file system (a map from names to images, an image being its list of pixel
values), fail when the file is absent (skimage io.imread raises, the spec's
DataError), otherwise divide every pixel value by 255. -/
def loadBaselineLabel (files : String → Option (List ℚ)) (idx : Nat) :
    Except String (List ℚ) :=
  match files (hdrLabelFileName idx) with
  | none => Except.error "DataError: missing baseline-label file"
  | some img => Except.ok (img.map (fun p => p / 255))

/-! ### Adaptive support/query split, eval.py lines 106 and 161 -/

/-- np.arange of 1 to K+1: the exposure indices 1..K offered to the split. -/
def expIndices (K : Nat) : List Nat := List.range' 1 K

/-- Modelled from the documented behaviour of sklearn train_test_split with
test_size 1: the input array is shuffled by a uniformly random permutation
and the test set is the first element of the shuffle, the train set the
remaining elements.  The permutation σ is that random draw, made explicit.
Position k of the shuffle of np.arange of 1 to K+1 holds the value σ k + 1. -/
def shuffledExposures (K : Nat) (σ : Equiv.Perm (Fin K)) : List Nat :=
  List.ofFn (fun k => (σ k).val + 1)

/-- The pair of train (support) and test (query) exposure-index lists
produced by one train_test_split call (eval.py lines 106 and 161). -/
def trainTestSplitOne (K : Nat) (σ : Equiv.Perm (Fin K)) : List Nat × List Nat :=
  ((shuffledExposures K σ).drop 1, (shuffledExposures K σ).take 1)

/-- The adaptive loops draw a fresh split per scene (eval.py lines 100-106
and 155-161): scene s consumes the s-th random draw of the run. -/
def adaptiveSplitForScene (K : Nat) (draws : Nat → Equiv.Perm (Fin K)) (s : Nat) :
    List Nat × List Nat :=
  trainTestSplitOne K (draws s)

/-! ### Task enumeration, eval.py lines 81-89 and 100-132 -/

/-- One evaluation unit: the scene it comes from, the exposure index used as
query input, the exposure index used as label, and whether inner-loop
adaptation is performed before scoring. -/
structure Task where
  scene : Nat
  query : Nat
  label : Nat
  adapted : Bool
deriving DecidableEq

/-- Single-shot enumeration (eval.py lines 81-89): for each scene i in
enumeration order, for each exposure j ascending over range of 1 to
shape 1 (which is K + 1 by the scene invariant, so j runs over 1..K), one
task with query exposure j, label exposure 0, and no adaptation. -/
def singleShotTasks (numScenes K : Nat) : List Task :=
  (List.range numScenes).flatMap (fun i =>
    (List.range' 1 K).map (fun j => ⟨i, j, 0, false⟩))

/-- Adaptive-mode evaluation calls (eval.py lines 100-132 and 155-193): one
evaluate_maml call per scene, scenes in enumeration order. -/
def adaptiveTaskScenes (numScenes : Nat) : List Nat :=
  List.range numScenes

/-! ### Metric aggregation, eval.py lines 78-91, 97-138 and 145-199 -/

/-- Metric accumulation: a running sum folded from the given initial value
(eval.py lines 87-88, 134-135 and 195-196). -/
def accumulate (init : ℚ) (vals : List ℚ) : ℚ := vals.foldl (· + ·) init

/-- Arithmetic mean of a list of rationals. -/
def listMean (vals : List ℚ) : ℚ := vals.sum / vals.length

/-- Reported single-shot metric (eval.py lines 78-79 and 87-91): the
accumulator starts at 0, sums the per-task values, and is divided by
numScenes * K, the code's shape 0 * (shape 1 - 1). -/
def singleShotReported (numScenes K : Nat) (vals : List ℚ) : ℚ :=
  accumulate 0 vals / ((numScenes * K : Nat) : ℚ)

/-- Reported adaptive metric (eval.py lines 97-98 or 145-146 for the reset,
134-138 or 195-199 for the sum and division): the accumulator starts at 0
and the sum is divided by the number of scenes. -/
def adaptiveReported (numScenes : Nat) (vals : List ℚ) : ℚ :=
  accumulate 0 vals / (numScenes : ℚ)

/-- The three reported metric values of one run, one per mode, with the
accumulator re-initialised to 0 at the start of each mode exactly as in the
code (lines 78-79, 97-98 and 145-146); vals1, vals2, vals3 are the per-task
metric values recorded in the single-shot, Debevec-adapted and
HDRCNN-adapted modes respectively. -/
def evalRunReported (numScenes K : Nat) (vals1 vals2 vals3 : List ℚ) :
    ℚ × ℚ × ℚ :=
  let r1 := singleShotReported numScenes K vals1
  let r2 := adaptiveReported numScenes vals2
  let r3 := adaptiveReported numScenes vals3
  (r1, r2, r3)

/-! ### Control flow of main, eval.py lines 18-204 -/

/-- The supported loss identifiers (eval.py line 50). -/
def validLossFuncs : List String :=
  ["ExpandNetLoss", "HaarLoss", "LPIPSLoss", "LPIPSLoss_L2", "SSIMLoss"]

/-- Observable steps of main, in execution order. -/
inductive Step where
  | makeOutputDirs
  | makeLogger
  | loadConfig
  | raiseConfigError
  | loadCheckpoint
  | buildModel
  | loadDataset
  | runSingleShot
  | raiseZeroDivisionError
  | raiseValueError
  | runDebevecAdapted
  | runHdrcnnAdapted
deriving DecidableEq

/-- Trace of main (eval.py lines 18-204) as a function of the configured
loss name and of K, the configured number of exposures.  Output-directory
and logger setup (lines 26-41) and config loading (lines 44-47) precede the
loss-name check (line 50, an assert tagged CONFIG, the spec's ConfigError);
only when it passes are the checkpoint and the dataset loaded and the three
modes run.  eval.py itself never validates K, so its failures for small K
surface inside the modes.  At K = 0 the single-shot loops run zero task
bodies (range of 1 to shape 1 is empty, shape 1 being K + 1 by the scene
invariant) and line 90 then divides the Python float accumulator by
shape 0 * (shape 1 - 1) = 0, raising ZeroDivisionError still inside the
single-shot phase, before any adaptive split; the runSingleShot step, which
stands for a completed single-shot evaluation, is therefore not emitted.
At K = 1 single-shot evaluation completes and the Debevec-adapted mode calls
sklearn train_test_split on np.arange of 1 to K+1 with test_size 1
(line 106); modelled from sklearn's documented validation, that call raises
ValueError because the resulting train set would be empty.  For K ≥ 2 all
three modes run. -/
def mainTrace (lossFunc : String) (K : Nat) : List Step :=
  [Step.makeOutputDirs, Step.makeLogger, Step.loadConfig] ++
  (if lossFunc ∈ validLossFuncs then
    [Step.loadCheckpoint, Step.buildModel, Step.loadDataset] ++
    (if K = 0 then [Step.raiseZeroDivisionError]
     else
      [Step.runSingleShot] ++
      (if 2 ≤ K then [Step.runDebevecAdapted, Step.runHdrcnnAdapted]
       else [Step.raiseValueError]))
  else [Step.raiseConfigError])

/-! ### Command-line parsing, eval.py lines 54-57 and 209 -/

/-- Python bool applied to a string: false exactly for the empty string.
argparse with type bool (eval.py line 209) applies this conversion to the
raw command-line text. -/
def pyBoolOfString (s : String) : Bool := !s.isEmpty

/-- Checkpoint file chosen from the parsed flag (eval.py lines 54-57). -/
def checkpointFileName (useBest : Bool) : String :=
  if useBest then "model_best.pth.tar" else "model_last.pth.tar"

/-- Checkpoint file as a function of the command-line text following the
use_best option. -/
def checkpointFromCli (arg : String) : String :=
  checkpointFileName (pyBoolOfString arg)

/-! ### Helper lemmas about the split -/

theorem length_shuffledExposures (K : Nat) (σ : Equiv.Perm (Fin K)) :
    (shuffledExposures K σ).length = K := by
  simp [shuffledExposures]

theorem nodup_shuffledExposures (K : Nat) (σ : Equiv.Perm (Fin K)) :
    (shuffledExposures K σ).Nodup := by
  rw [shuffledExposures, List.nodup_ofFn]
  intro a b hab
  have hv : (σ a).val = (σ b).val := by
    simpa using hab
  exact σ.injective (Fin.ext hv)

theorem mem_shuffledExposures (K : Nat) (σ : Equiv.Perm (Fin K)) (x : Nat) :
    x ∈ shuffledExposures K σ ↔ x ∈ expIndices K := by
  rw [shuffledExposures, List.mem_ofFn, expIndices, List.mem_range'_1]
  constructor
  · rintro ⟨k, rfl⟩
    show 1 ≤ (σ k).val + 1 ∧ (σ k).val + 1 < 1 + K
    have := (σ k).isLt
    omega
  · rintro ⟨h1, h2⟩
    have hlt : x - 1 < K := by omega
    refine ⟨σ.symm ⟨x - 1, hlt⟩, ?_⟩
    show (σ (σ.symm ⟨x - 1, hlt⟩)).val + 1 = x
    rw [Equiv.apply_symm_apply]
    exact Nat.sub_add_cancel h1

theorem trainTestSplitOne_snd (K : Nat) (hK : 0 < K) (σ : Equiv.Perm (Fin K)) :
    (trainTestSplitOne K σ).2 = [(σ ⟨0, hK⟩).val + 1] := by
  obtain ⟨m, rfl⟩ : ∃ m, K = m + 1 := ⟨K - 1, by omega⟩
  simp [trainTestSplitOne, shuffledExposures, List.ofFn_succ]

theorem query_fiber_card (K : Nat) (hK : 0 < K) (x y : Fin K) :
    (Finset.univ.filter (fun τ : Equiv.Perm (Fin K) => τ ⟨0, hK⟩ = x)).card =
    (Finset.univ.filter (fun τ : Equiv.Perm (Fin K) => τ ⟨0, hK⟩ = y)).card := by
  apply Finset.card_equiv (Equiv.mulLeft (Equiv.swap x y))
  intro τ
  simp only [Finset.mem_filter, Finset.mem_univ, true_and, Equiv.coe_mulLeft,
    Equiv.Perm.mul_apply]
  constructor
  · intro h
    rw [h, Equiv.swap_apply_left]
  · intro h
    by_contra hne
    rcases eq_or_ne (τ ⟨0, hK⟩) y with hy | hy
    · rw [hy, Equiv.swap_apply_right] at h
      exact hne (h ▸ hy)
    · rw [Equiv.swap_apply_of_ne_of_ne hne hy] at h
      exact hy h

/-! ### Helper lemmas about task enumeration and aggregation -/

theorem singleShotTasks_succ (N K : Nat) :
    singleShotTasks (N + 1) K
      = singleShotTasks N K
        ++ (List.range' 1 K).map (fun j => (⟨N, j, 0, false⟩ : Task)) := by
  simp [singleShotTasks, List.range_succ]

theorem mem_singleShotTasks {N K : Nat} {t : Task} (h : t ∈ singleShotTasks N K) :
    t.scene < N ∧ 1 ≤ t.query ∧ t.query < 1 + K ∧ t.label = 0 ∧ t.adapted = false := by
  rw [singleShotTasks, List.mem_flatMap] at h
  obtain ⟨i, hi, ht⟩ := h
  rw [List.mem_map] at ht
  obtain ⟨j, hj, rfl⟩ := ht
  rw [List.mem_range] at hi
  rw [List.mem_range'_1] at hj
  exact ⟨hi, hj.1, hj.2, rfl, rfl⟩

theorem filter_scene_block (i s K : Nat) :
    ((List.range' 1 K).map (fun j => (⟨i, j, 0, false⟩ : Task))).filter
        (fun t => t.scene == s)
      = if i = s then (List.range' 1 K).map (fun j => (⟨s, j, 0, false⟩ : Task))
        else [] := by
  by_cases h : i = s
  · subst h
    rw [if_pos rfl, List.filter_eq_self]
    intro t ht
    rw [List.mem_map] at ht
    obtain ⟨j, _, rfl⟩ := ht
    simp
  · rw [if_neg h]
    rw [List.filter_eq_nil_iff]
    intro t ht
    rw [List.mem_map] at ht
    obtain ⟨j, _, rfl⟩ := ht
    simpa using h

theorem filter_singleShotTasks (N K s : Nat) :
    (singleShotTasks N K).filter (fun t => t.scene == s)
      = if s < N then (List.range' 1 K).map (fun j => (⟨s, j, 0, false⟩ : Task))
        else [] := by
  induction N with
  | zero => simp [singleShotTasks]
  | succ n ih =>
      rw [singleShotTasks_succ, List.filter_append, ih, filter_scene_block]
      by_cases h1 : s < n
      · have h2 : n ≠ s := by omega
        have h3 : s < n + 1 := by omega
        simp [h1, h2, h3]
      · by_cases h4 : n = s
        · subst h4
          simp [h1]
        · have h5 : ¬ s < n + 1 := by omega
          simp [h1, h4, h5]

theorem pairwise_singleShotTasks (N K : Nat) :
    List.Pairwise (fun a b : Task =>
      a.scene < b.scene ∨ (a.scene = b.scene ∧ a.query < b.query))
      (singleShotTasks N K) := by
  induction N with
  | zero => simp [singleShotTasks]
  | succ n ih =>
      rw [singleShotTasks_succ, List.pairwise_append]
      refine ⟨ih, ?_, ?_⟩
      · rw [List.pairwise_map]
        have hp : List.Pairwise (· < ·) (List.range' 1 K) :=
          List.pairwise_lt_range' 1 K
        exact hp.imp (fun h => Or.inr ⟨rfl, h⟩)
      · intro a ha b hb
        have h1 := (mem_singleShotTasks ha).1
        rw [List.mem_map] at hb
        obtain ⟨j, _, rfl⟩ := hb
        exact Or.inl h1

theorem length_singleShotTasks (N K : Nat) :
    (singleShotTasks N K).length = N * K := by
  induction N with
  | zero => simp [singleShotTasks]
  | succ n ih =>
      rw [singleShotTasks_succ]
      simp [ih, Nat.succ_mul]

theorem accumulate_eq_sum (vals : List ℚ) : accumulate 0 vals = vals.sum := by
  rw [accumulate, List.sum_eq_foldl]

/-! ### Theorems -/

/-- C1: in HDRCNN-adapted mode the baseline-label file index for scene s is
s+1 plus one dataset length for support exposure 1, s+1 with no offset for
exposure 2, and s+1 plus two dataset lengths for exposure 3; the file name
is that index zero-padded to 6 digits, followed by the fixed suffix. -/
theorem baseline_label_index_mapping (L s : Nat) :
    imageIdx L s 1 = s + 1 + L ∧
    imageIdx L s 2 = s + 1 ∧
    imageIdx L s 3 = s + 1 + 2 * L ∧
    (∀ idx : Nat,
      hdrLabelFileName idx =
        String.mk (List.replicate (6 - (Nat.repr idx).length) '0')
          ++ Nat.repr idx ++ "_out.png" ∧
      6 ≤ (pyFormat06 idx).length) := by
  refine ⟨by simp [imageIdx], by simp [imageIdx], by simp [imageIdx], ?_⟩
  intro idx
  refine ⟨rfl, ?_⟩
  have h : (pyFormat06 idx).length
      = (6 - (Nat.repr idx).length) + (Nat.repr idx).length := by
    simp [pyFormat06, String.length_append]
  omega

/-- C2: each adaptive draw splits the exposure indices 1..K into disjoint
support and query sets whose union is exactly 1..K, with query size 1 and
support size K−1; the draw is uniform without replacement in that every
query value arises from equally many permutation draws; and the split used
for scene s is a function of scene s's own fresh draw alone. -/
theorem adaptive_split_partition (K : Nat) (hK : 2 ≤ K) (σ : Equiv.Perm (Fin K)) :
    List.Disjoint (trainTestSplitOne K σ).1 (trainTestSplitOne K σ).2 ∧
    (trainTestSplitOne K σ).1.toFinset ∪ (trainTestSplitOne K σ).2.toFinset
      = (expIndices K).toFinset ∧
    (trainTestSplitOne K σ).2.length = 1 ∧
    (trainTestSplitOne K σ).1.length = K - 1 ∧
    (∀ x y : Fin K,
      (Finset.univ.filter (fun τ : Equiv.Perm (Fin K) =>
          (trainTestSplitOne K τ).2 = [x.val + 1])).card =
      (Finset.univ.filter (fun τ : Equiv.Perm (Fin K) =>
          (trainTestSplitOne K τ).2 = [y.val + 1])).card) ∧
    (∀ draws draws' : Nat → Equiv.Perm (Fin K), ∀ s : Nat,
      draws s = draws' s →
      adaptiveSplitForScene K draws s = adaptiveSplitForScene K draws' s) := by
  have h0 : 0 < K := by omega
  have hnd := nodup_shuffledExposures K σ
  have hlen := length_shuffledExposures K σ
  refine ⟨?_, ?_, ?_, ?_, ?_, ?_⟩
  · exact (List.disjoint_take_drop hnd (le_refl 1)).symm
  · have hsplit : (shuffledExposures K σ).take 1 ++ (shuffledExposures K σ).drop 1
        = shuffledExposures K σ := List.take_append_drop 1 _
    have hU : (trainTestSplitOne K σ).1.toFinset ∪ (trainTestSplitOne K σ).2.toFinset
        = (shuffledExposures K σ).toFinset := by
      rw [Finset.union_comm, ← List.toFinset_append]
      simp only [trainTestSplitOne]
      rw [hsplit]
    rw [hU]
    ext a
    simp only [List.mem_toFinset]
    exact mem_shuffledExposures K σ a
  · simp only [trainTestSplitOne, List.length_take, hlen]
    omega
  · simp only [trainTestSplitOne, List.length_drop, hlen]
  · intro x y
    have hconv : ∀ z : Fin K,
        Finset.univ.filter (fun τ : Equiv.Perm (Fin K) =>
            (trainTestSplitOne K τ).2 = [z.val + 1])
        = Finset.univ.filter (fun τ : Equiv.Perm (Fin K) => τ ⟨0, h0⟩ = z) := by
      intro z
      apply Finset.filter_congr
      intro τ _
      rw [trainTestSplitOne_snd K h0 τ]
      constructor
      · intro h
        have hv : (τ ⟨0, h0⟩).val + 1 = z.val + 1 := by
          simpa using h
        exact Fin.ext (by omega)
      · intro h
        rw [h]
    rw [hconv x, hconv y]
    exact query_fiber_card K h0 x y
  · intro draws draws' s h
    simp [adaptiveSplitForScene, h]

/-- C2 witness: at K = 3 with the identity draw, the query set has one
element and the support set has two. -/
theorem adaptive_split_partition_witness :
    (trainTestSplitOne 3 (Equiv.refl (Fin 3))).2.length = 1 ∧
    (trainTestSplitOne 3 (Equiv.refl (Fin 3))).1.length = 2 := by
  have h := adaptive_split_partition 3 (by decide) (Equiv.refl (Fin 3))
  exact ⟨h.2.2.1, h.2.2.2.1⟩

/-- C10: for any support exposure index outside 1..3 the baseline-label
index receives no offset, so it equals scene index + 1, the very index used
for exposure 2; moreover such an exposure index is drawn into the support
set whenever K is at least 4, e.g. by the identity shuffle. -/
theorem baseline_label_index_collision (L s i : Nat)
    (h1 : i ≠ 1) (h2 : i ≠ 2) (h3 : i ≠ 3) :
    imageIdx L s i = s + 1 ∧ imageIdx L s i = imageIdx L s 2 ∧
    ∀ K : Nat, 4 ≤ K → ∃ σ : Equiv.Perm (Fin K), 4 ∈ (trainTestSplitOne K σ).1 := by
  refine ⟨by simp [imageIdx, h1, h2, h3], by simp [imageIdx, h1, h2, h3], ?_⟩
  intro K hK
  refine ⟨Equiv.refl (Fin K), ?_⟩
  obtain ⟨m, rfl⟩ : ∃ m, K = m + 1 := ⟨K - 1, by omega⟩
  have hshuf : shuffledExposures (m + 1) (Equiv.refl (Fin (m + 1)))
      = 1 :: List.ofFn (fun k : Fin m => k.val + 2) := by
    simp [shuffledExposures, List.ofFn_succ]
  simp only [trainTestSplitOne, hshuf, List.drop_succ_cons, List.drop_zero]
  rw [List.mem_ofFn]
  exact ⟨⟨2, by omega⟩, by simp⟩

/-- C10 witness: at dataset length 7, scene 5, exposure 4, the index is 6,
identical to the exposure-2 index. -/
theorem baseline_label_index_collision_witness :
    imageIdx 7 5 4 = 6 ∧ imageIdx 7 5 4 = imageIdx 7 5 2 := by
  have h := baseline_label_index_collision 7 5 4 (by decide) (by decide) (by decide)
  exact ⟨h.1, h.2.1⟩

/-- C3: in single-shot mode every scene s contributes exactly K tasks, one
per exposure index 1..K in ascending order, each with that exposure as
query, exposure 0 as label, and no adaptation; the full enumeration is
ordered by scene then by exposure; and each adaptive mode emits exactly one
task per scene. -/
theorem task_enumeration (N K s : Nat) (hs : s < N) :
    (singleShotTasks N K).filter (fun t => t.scene == s)
      = (List.range' 1 K).map (fun j => (⟨s, j, 0, false⟩ : Task)) ∧
    ((singleShotTasks N K).filter (fun t => t.scene == s)).length = K ∧
    (∀ t : Task, t ∈ singleShotTasks N K → t.label = 0 ∧ t.adapted = false) ∧
    List.Pairwise (fun a b : Task =>
      a.scene < b.scene ∨ (a.scene = b.scene ∧ a.query < b.query))
      (singleShotTasks N K) ∧
    (adaptiveTaskScenes N).count s = 1 := by
  have hf := filter_singleShotTasks N K s
  rw [if_pos hs] at hf
  refine ⟨hf, ?_, ?_, pairwise_singleShotTasks N K, ?_⟩
  · rw [hf]
    simp
  · intro t ht
    have h := mem_singleShotTasks ht
    exact ⟨h.2.2.2.1, h.2.2.2.2⟩
  · rw [adaptiveTaskScenes]
    exact List.count_eq_one_of_mem (List.nodup_range N) (List.mem_range.mpr hs)

/-- C3 witness: with 2 scenes and K = 3, scene 1 has exactly 3 single-shot
tasks and exactly one adaptive task. -/
theorem task_enumeration_witness :
    ((singleShotTasks 2 3).filter (fun t => t.scene == 1)).length = 3 ∧
    (adaptiveTaskScenes 2).count 1 = 1 := by
  have h := task_enumeration 2 3 1 (by decide)
  exact ⟨h.2.1, h.2.2.2.2⟩

/-- C4: the reported single-shot metric is the accumulated sum of the values
recorded for its N*K tasks divided by N*K, hence exactly the arithmetic mean
of the recorded values; each adaptive reported metric is the accumulated sum
over its N per-scene tasks divided by N, hence also the arithmetic mean. -/
theorem reported_metrics_are_means (N K : Nat) (f : Task → ℚ) (g : Nat → ℚ) :
    singleShotReported N K ((singleShotTasks N K).map f)
      = listMean ((singleShotTasks N K).map f) ∧
    adaptiveReported N ((adaptiveTaskScenes N).map g)
      = listMean ((adaptiveTaskScenes N).map g) := by
  constructor
  · rw [singleShotReported, listMean, accumulate_eq_sum, List.length_map,
      length_singleShotTasks]
  · rw [adaptiveReported, listMean, accumulate_eq_sum, List.length_map,
      adaptiveTaskScenes, List.length_range]

/-- C5: an unsupported EVAL.LOSS_FUNC value makes main raise the spec's
ConfigError, and the trace then contains no checkpoint load, no dataset
load, and none of the three evaluation modes. -/
theorem invalid_loss_func_config_error (name : String) (K : Nat)
    (h : name ∉ validLossFuncs) :
    Step.raiseConfigError ∈ mainTrace name K ∧
    Step.loadCheckpoint ∉ mainTrace name K ∧
    Step.loadDataset ∉ mainTrace name K ∧
    Step.runSingleShot ∉ mainTrace name K ∧
    Step.runDebevecAdapted ∉ mainTrace name K ∧
    Step.runHdrcnnAdapted ∉ mainTrace name K := by
  simp [mainTrace, h]

/-- C5 witness: the unsupported name L2Loss raises ConfigError. -/
theorem invalid_loss_func_config_error_witness :
    Step.raiseConfigError ∈ mainTrace "L2Loss" 3 :=
  (invalid_loss_func_config_error "L2Loss" 3 (by decide)).1

/-- C6 counterexample: with a valid loss function and K = 1 the run raises
no ConfigError at all; it performs single-shot evaluation and only then
fails with the ValueError raised inside the first adaptive split. -/
theorem small_K_no_config_error :
    Step.raiseConfigError ∉ mainTrace "SSIMLoss" 1 ∧
    Step.runSingleShot ∈ mainTrace "SSIMLoss" 1 ∧
    Step.raiseValueError ∈ mainTrace "SSIMLoss" 1 := by
  decide

/-- C6 amended: for K < 2 the run does fail, but never with a ConfigError:
at K = 0 with a ZeroDivisionError at the single-shot mean of line 90
(division by shape 0 * (shape 1 - 1) = 0) inside the single-shot phase,
before any adaptive split; at K = 1 with a ValueError raised by
train_test_split during the Debevec-adapted phase after single-shot
evaluation has already run; for K ≥ 2 neither error occurs and every
adaptive split has a non-empty support of size K − 1. -/
theorem small_K_value_error (name : String) (K : Nat)
    (hname : name ∈ validLossFuncs) :
    (K = 0 →
      Step.raiseZeroDivisionError ∈ mainTrace name K ∧
      Step.raiseConfigError ∉ mainTrace name K ∧
      Step.runDebevecAdapted ∉ mainTrace name K ∧
      Step.raiseValueError ∉ mainTrace name K) ∧
    (K = 1 →
      Step.raiseValueError ∈ mainTrace name K ∧
      Step.raiseConfigError ∉ mainTrace name K ∧
      Step.runSingleShot ∈ mainTrace name K ∧
      Step.runDebevecAdapted ∉ mainTrace name K) ∧
    (2 ≤ K →
      Step.raiseValueError ∉ mainTrace name K ∧
      Step.raiseZeroDivisionError ∉ mainTrace name K ∧
      ∀ σ : Equiv.Perm (Fin K),
        (trainTestSplitOne K σ).1.length = K - 1 ∧
        0 < (trainTestSplitOne K σ).1.length) := by
  refine ⟨?_, ?_, ?_⟩
  · intro hK
    subst hK
    simp [mainTrace, hname]
  · intro hK
    subst hK
    simp [mainTrace, hname]
  · intro hK
    have h0 : K ≠ 0 := by omega
    refine ⟨by simp [mainTrace, hname, hK, h0], by simp [mainTrace, hname, hK, h0], ?_⟩
    intro σ
    have hlen := length_shuffledExposures K σ
    constructor
    · simp only [trainTestSplitOne, List.length_drop, hlen]
    · simp only [trainTestSplitOne, List.length_drop, hlen]
      omega

/-- C6 amended witness: at K = 0 with a valid loss the single-shot phase
raises ZeroDivisionError; at K = 1 the adaptive phase raises ValueError; at
K = 2 neither error occurs and the support has one element. -/
theorem small_K_value_error_witness :
    Step.raiseZeroDivisionError ∈ mainTrace "SSIMLoss" 0 ∧
    Step.raiseValueError ∈ mainTrace "SSIMLoss" 1 ∧
    (trainTestSplitOne 2 (Equiv.refl (Fin 2))).1.length = 1 := by
  refine ⟨?_, ?_, ?_⟩
  · exact (((small_K_value_error "SSIMLoss" 0 (by decide)).1) rfl).1
  · exact (((small_K_value_error "SSIMLoss" 1 (by decide)).2.1) rfl).1
  · exact ((((small_K_value_error "SSIMLoss" 2 (by decide)).2.2) (by decide)).2.2
      (Equiv.refl (Fin 2))).1

/-- C7: a support label loaded in HDRCNN-adapted mode has every pixel value
divided by 255, and when the file for the computed index is absent the load
fails with the spec's DataError instead of substituting another label. -/
theorem baseline_label_load (files : String → Option (List ℚ)) (L s i : Nat) :
    (files (hdrLabelFileName (imageIdx L s i)) = none →
      loadBaselineLabel files (imageIdx L s i)
        = Except.error "DataError: missing baseline-label file") ∧
    (∀ img : List ℚ, files (hdrLabelFileName (imageIdx L s i)) = some img →
      loadBaselineLabel files (imageIdx L s i)
        = Except.ok (img.map (fun p => p / 255))) := by
  constructor
  · intro h
    simp [loadBaselineLabel, h]
  · intro img h
    simp [loadBaselineLabel, h]

/-- C7 witness: an empty file system yields DataError at the index of
scene 5, exposure 1, dataset length 2; a file holding pixels 255 and 510
loads as pixels 1 and 2. -/
theorem baseline_label_load_witness :
    loadBaselineLabel (fun _ => none) (imageIdx 2 5 1)
      = Except.error "DataError: missing baseline-label file" ∧
    loadBaselineLabel (fun _ => some [255, 510]) (imageIdx 2 5 1)
      = Except.ok [1, 2] := by
  constructor
  · exact (baseline_label_load (fun _ => none) 2 5 1).1 rfl
  · have h := (baseline_label_load (fun _ => some [255, 510]) 2 5 1).2
      [255, 510] rfl
    rw [h]
    norm_num

/-- C8: the three reported metric values are mutually independent: each
mode's result is a function of that mode's recorded per-task values only,
computed from an accumulator that starts at zero for that mode. -/
theorem accumulator_reset_independence (N K : Nat)
    (vs1 vs1' vs2 vs2' vs3 vs3' : List ℚ) :
    (evalRunReported N K vs1 vs2 vs3).1 = (evalRunReported N K vs1 vs2' vs3').1 ∧
    (evalRunReported N K vs1 vs2 vs3).2.1
      = (evalRunReported N K vs1' vs2 vs3').2.1 ∧
    (evalRunReported N K vs1 vs2 vs3).2.2
      = (evalRunReported N K vs1' vs2' vs3).2.2 ∧
    (evalRunReported N K vs1 vs2 vs3).2.2 = accumulate 0 vs3 / (N : ℚ) :=
  ⟨rfl, rfl, rfl, rfl⟩

/-- C9: argparse parses the use_best option with Python bool, which is true
for every non-empty string; the command-line text False therefore parses to
true and main loads model_best.pth.tar, not model_last.pth.tar as the claim
states; the parsed-flag-to-file mapping itself (lines 54-57) does send true
to the best checkpoint and false to the last one. -/
theorem use_best_false_selects_best :
    pyBoolOfString "False" = true ∧
    checkpointFromCli "False" = "model_best.pth.tar" ∧
    checkpointFileName true = "model_best.pth.tar" ∧
    checkpointFileName false = "model_last.pth.tar" :=
  ⟨rfl, rfl, rfl, rfl⟩

end MetaHDR
